import Mathlib

/-!
# Verification of the webgl_help device-state cache and resource handles

Shallow embedding of the repository's JavaScript sources.  Stateful methods
become pure functions from an explicit state to a pair of (new state, list of
emitted driver calls); methods that can throw return `Except JsError`.
JavaScript `null` values (the `InvalidProgramId` / `InvalidBufferId` /
`InvalidTextureId` sentinels, all defined as `null` in the sources) are
modelled as `Option.none`; live GPU object handles are modelled as `Nat`
wrapped in `Option.some`.
-/

namespace WebGLHelp

/-! ## WebGL numeric constants (fixed by the WebGL specification) -/

def glNEVER : Nat := 512
def glLESS : Nat := 513
def glEQUAL : Nat := 514
def glLEQUAL : Nat := 515
def glGREATER : Nat := 516
def glNOTEQUAL : Nat := 517
def glGEQUAL : Nat := 518
def glALWAYS : Nat := 519
def glCULL_FACE : Nat := 2884
def glDEPTH_TEST : Nat := 2929
def glTEXTURE_2D : Nat := 3553
def glARRAY_BUFFER : Nat := 34962
def glELEMENT_ARRAY_BUFFER : Nat := 34963
def glFRAGMENT_SHADER : Nat := 35632
def glVERTEX_SHADER : Nat := 35633

/-- `const MAXIMUM_TEXTURE_UNITS = 32;` (src/unnamed/part_001, src/lib/state/index.js). -/
def MAXIMUM_TEXTURE_UNITS : Nat := 32

/-! ## Driver calls

Every underlying call the embedded methods issue against the WebGL context
(or, for resource handles, against the collaborator context object) is
recorded as one `Event` in the emitted trace, in program order. -/

inductive Event where
  | useProgram (id : Option Nat)
  | bindBuffer (target : Nat) (id : Option Nat)
  | bindTexture (target : Nat) (id : Option Nat)
  | enableVertexAttribArray (i : Nat)
  | disableVertexAttribArray (i : Nat)
  | vertexAttribPointer (location size ty : Nat) (normalized : Bool) (stride offset : Nat)
  | enable (cap : Nat)
  | disable (cap : Nat)
  | depthFunc (c : Nat)
  | createProgram (id : Nat)
  | createShader (id : Nat)
  | shaderSource (id : Nat)
  | compileShader (id : Nat)
  | attachShader (program : Nat) (shader : Option Nat)
  | linkProgram (id : Nat)
  | deleteProgram (id : Option Nat)
  | deleteShader (id : Option Nat)
  | deleteBuffer (id : Option Nat)
  | deleteTexture (id : Option Nat)
  deriving DecidableEq, Repr

/-- The `throw new Error(...)` sites of the embedded sources, one constructor
per distinct error message, plus `typeError` for a JavaScript runtime
`TypeError` (property access on `undefined`/`null`). -/
inductive JsError where
  | invalidTextureUnit      -- 'Invalid texture unit id.'
  | unknownDepthComparison  -- 'Unknown depth comparison.'
  | noAttributeBuffer       -- 'No attribute buffer supplied.'
  | noAttributesSupplied    -- 'No attributes supplied.'
  | missingContext          -- '... - No WebGL context was specified.'
  | alreadyInitialized      -- '... has already been initialized.'
  | compileFailure          -- Shader error: 'Failed to compile shader.'
  | typeError               -- JavaScript TypeError raised by the runtime
  deriving DecidableEq, Repr

/-! ## Device state (`WebGLState`, src/unnamed/part_001)

The constructor's sticky cells `{ isSet, value }`, the clear-state sentinels
and the texture-unit table are reproduced field by field. -/

structure Sticky (α : Type) where
  isSet : Bool
  value : α
  deriving DecidableEq, Repr

structure ClearColor where
  r : Int
  g : Int
  b : Int
  a : Int
  deriving DecidableEq, Repr

structure TextureUnit where
  type : Nat            -- 0 = InvalidTextureType
  texture : Option Nat  -- InvalidTextureId = null
  deriving DecidableEq, Repr

def INVALID_COLOR_VALUE : Int := -1
def INVALID_DEPTH_VALUE : Int := -1000
def INVALID_STENCIL_VALUE : Int := -1

structure WebGLState where
  activeProgram : Option Nat       -- InvalidProgramId = null
  frameBuffer : Option Nat         -- InvalidFrameBufferId = null
  cullEnabled : Sticky Bool
  cullMode : Sticky Int
  depthCompare : Sticky Int
  depthTest : Sticky Bool
  depthWrite : Sticky Bool
  clearColor : ClearColor
  clearDepth : Int
  clearStencil : Int
  attributeCount : Nat             -- number of attributes currently enabled
  attributeBufferId : Int          -- -1 when no attribute buffer has been bound
  arrayBuffer : Option Nat         -- InvalidBufferId = null
  elementArrayBuffer : Option Nat  -- InvalidBufferId = null
  textureUnits : List TextureUnit
  deriving DecidableEq, Repr

/-- The `WebGLState` constructor. -/
def WebGLState.new : WebGLState where
  activeProgram := none
  frameBuffer := none
  cullEnabled := ⟨false, false⟩
  cullMode := ⟨false, -1⟩
  depthCompare := ⟨false, -1⟩
  depthTest := ⟨false, false⟩
  depthWrite := ⟨false, true⟩
  clearColor := ⟨INVALID_COLOR_VALUE, INVALID_COLOR_VALUE, INVALID_COLOR_VALUE, INVALID_COLOR_VALUE⟩
  clearDepth := INVALID_DEPTH_VALUE
  clearStencil := INVALID_STENCIL_VALUE
  attributeCount := 0
  attributeBufferId := -1
  arrayBuffer := none
  elementArrayBuffer := none
  textureUnits := List.replicate MAXIMUM_TEXTURE_UNITS ⟨0, none⟩

namespace WebGLState

/-- `WebGLState.invalidate` (src/unnamed/part_001 lines 101-133): every sticky
cell is reset to unset, every sentinel cell to its invalid value, every
texture unit to empty; attribute slots above 0 are disabled on the live
context (`for (let loop = 1; loop < this.attributeCount; ++loop)`). -/
def invalidate (s : WebGLState) : WebGLState × List Event :=
  ({ s with
      activeProgram := none
      arrayBuffer := none
      frameBuffer := none
      elementArrayBuffer := none
      cullMode := { s.cullMode with isSet := false }
      cullEnabled := { s.cullEnabled with isSet := false }
      depthTest := { s.depthTest with isSet := false }
      depthCompare := { s.depthCompare with isSet := false }
      depthWrite := { s.depthWrite with isSet := false }
      clearColor := ⟨INVALID_COLOR_VALUE, INVALID_COLOR_VALUE, INVALID_COLOR_VALUE, INVALID_COLOR_VALUE⟩
      clearDepth := INVALID_DEPTH_VALUE
      clearStencil := INVALID_STENCIL_VALUE
      attributeCount := 0
      attributeBufferId := -1
      textureUnits := List.replicate MAXIMUM_TEXTURE_UNITS ⟨0, none⟩ },
   (List.range' 1 (s.attributeCount - 1)).map Event.disableVertexAttribArray)

/-- `WebGLState.useProgram` (src/unnamed/part_001 lines 362-370): issues
`gl.useProgram` and caches only when the requested program differs from the
cached one; the `Bool` result reports whether a change occurred. -/
def useProgram (s : WebGLState) (programId : Option Nat) : WebGLState × List Event × Bool :=
  if s.activeProgram ≠ programId then
    ({ s with activeProgram := programId }, [Event.useProgram programId], true)
  else
    (s, [], false)

/-- `WebGLState.bindArrayBuffer` (src/unnamed/part_001 lines 444-452). -/
def bindArrayBuffer (s : WebGLState) (bufferId : Option Nat) : WebGLState × List Event × Bool :=
  if s.arrayBuffer ≠ bufferId then
    ({ s with arrayBuffer := bufferId }, [Event.bindBuffer glARRAY_BUFFER bufferId], true)
  else
    (s, [], false)

/-- `WebGLState.bindElementArrayBuffer` (src/unnamed/part_001 lines 461-469). -/
def bindElementArrayBuffer (s : WebGLState) (bufferId : Option Nat) : WebGLState × List Event × Bool :=
  if s.elementArrayBuffer ≠ bufferId then
    ({ s with elementArrayBuffer := bufferId }, [Event.bindBuffer glELEMENT_ARRAY_BUFFER bufferId], true)
  else
    (s, [], false)

/-- `WebGLState.bindTexture2D` (src/unnamed/part_001 lines 379-398).  The
source validates `textureUnit < 0 || textureUnit > MAXIMUM_TEXTURE_UNITS`;
a unit that passes validation but lies beyond the 32-entry
`_textureUnits` array makes the source read a property of `undefined`,
which raises a TypeError at run time (`JsError.typeError` here). -/
def bindTexture2D (s : WebGLState) (textureUnit : Int) (textureId : Option Nat) :
    Except JsError (WebGLState × List Event × Bool) :=
  if textureUnit < 0 ∨ textureUnit > (MAXIMUM_TEXTURE_UNITS : Int) then
    .error .invalidTextureUnit
  else
    match s.textureUnits.get? textureUnit.toNat with
    | none => .error .typeError
    | some unit =>
      if unit.type ≠ glTEXTURE_2D ∨ unit.texture ≠ textureId then
        .ok ({ s with textureUnits := s.textureUnits.set textureUnit.toNat ⟨glTEXTURE_2D, textureId⟩ },
             [Event.bindTexture (glTEXTURE_2D + textureUnit.toNat) textureId], true)
      else
        .ok (s, [], false)

/-- `WebGLState.setDepthTestNative` (src/unnamed/part_001 lines 287-305):
two independent sticky cells, one for the enable flag and one for the
comparison function; the comparison is applied only when supplied
(`compare !== undefined`). -/
def setDepthTestNative (s : WebGLState) (enabled : Bool) (compare : Option Nat) :
    WebGLState × List Event :=
  let (s1, tr1) :=
    if ¬ s.depthTest.isSet ∨ enabled ≠ s.depthTest.value then
      ({ s with depthTest := ⟨true, enabled⟩ },
       [if enabled then Event.enable glDEPTH_TEST else Event.disable glDEPTH_TEST])
    else
      (s, [])
  match compare with
  | some c =>
    if ¬ s1.depthCompare.isSet ∨ (c : Int) ≠ s1.depthCompare.value then
      ({ s1 with depthCompare := ⟨true, (c : Int)⟩ }, tr1 ++ [Event.depthFunc c])
    else
      (s1, tr1)
  | none => (s1, tr1)

end WebGLState

-- The `DepthCompare` enumeration (src/lib/program/index.js lines 152-161).
namespace DepthCompare

def Never : Int := 0
def Less : Int := 1
def Equal : Int := 2
def NotEqual : Int := 3
def LessEqual : Int := 4
def Greater : Int := 5
def GreaterEqual : Int := 6
def Always : Int := 7

end DepthCompare

namespace WebGLState

/-- `WebGLState.setDepthTest` (src/unnamed/part_001 lines 313-354).  The
source guards the whole switch with `if (compare)`: a JavaScript number is
truthy exactly when it is non-zero, so an absent comparison and the value
`0` both take the `else` branch, which delegates with no comparison at
all.  The `case DepthCompare.Never` arm of the switch is kept here exactly
as in the source, inside the non-zero branch. -/
def setDepthTest (s : WebGLState) (enabled : Bool) (compare : Option Int) :
    Except JsError (WebGLState × List Event) :=
  match compare with
  | some c =>
    if c ≠ 0 then
      if c = DepthCompare.Never then .ok (setDepthTestNative s enabled (some glNEVER))
      else if c = DepthCompare.Less then .ok (setDepthTestNative s enabled (some glLESS))
      else if c = DepthCompare.Equal then .ok (setDepthTestNative s enabled (some glEQUAL))
      else if c = DepthCompare.NotEqual then .ok (setDepthTestNative s enabled (some glNOTEQUAL))
      else if c = DepthCompare.LessEqual then .ok (setDepthTestNative s enabled (some glLEQUAL))
      else if c = DepthCompare.Greater then .ok (setDepthTestNative s enabled (some glGREATER))
      else if c = DepthCompare.GreaterEqual then .ok (setDepthTestNative s enabled (some glGEQUAL))
      else if c = DepthCompare.Always then .ok (setDepthTestNative s enabled (some glALWAYS))
      else .error .unknownDepthComparison
    else
      .ok (setDepthTestNative s enabled none)
  | none => .ok (setDepthTestNative s enabled none)

end WebGLState

/-! ## Attribute buffers as consumed by `enableAttributes`

`enableAttributes` reads `attributeBuffer.id`, `.length`
(= `attributes.length`) and, per entry, `location`, `size`, `type`,
`normalized`, `stride` and `offset`.  The JavaScript
`if (!attributeBuffer) throw` guard corresponds to the `none` case of an
optional argument; both embedded revisions receive the buffer directly,
so the guard is vacuous here. -/

structure GLAttribute where
  location : Nat
  size : Nat
  type : Nat
  normalized : Bool
  stride : Nat
  offset : Nat
  deriving DecidableEq, Repr

structure AttributeBufferObj where
  id : Int
  attributes : List GLAttribute
  deriving DecidableEq, Repr

/-- `WebGLState.enableAttributes` as in src/lib/state/index.js lines
343-383: the whole body is guarded by
`if (attributeBuffer.id !== this.attributeBufferId)`; one pass enables the
slots at or beyond the previously enabled count and configures every slot;
the disable loop then starts at `Math.max(1, attributeIndex)` so that
slot 0 is never disabled. -/
def LibState.enableAttributes (s : WebGLState) (b : AttributeBufferObj) :
    WebGLState × List Event :=
  if b.id ≠ s.attributeBufferId then
    let count := b.attributes.length
    let oldEnabled := s.attributeCount
    let configure := (List.range count).flatMap fun i =>
      (if oldEnabled ≤ i then [Event.enableVertexAttribArray i] else []) ++
      ((b.attributes.get? i).toList.map fun a =>
        Event.vertexAttribPointer a.location a.size a.type a.normalized a.stride a.offset)
    let start := max 1 count
    let disables := (List.range' start (oldEnabled - start)).map Event.disableVertexAttribArray
    ({ s with attributeCount := count, attributeBufferId := b.id }, configure ++ disables)
  else
    (s, [])

/-- `WebGLState.enableAttributes` as in src/unnamed/part_001 lines 476-513:
the id guard is commented out there, and the disable loop runs
`for (let loop = count; loop < oldEnabled; loop++)` — starting at `count`,
not at `Math.max(1, count)`, so slot 0 is disabled when `count == 0`. -/
def Part001.enableAttributes (s : WebGLState) (b : AttributeBufferObj) :
    WebGLState × List Event :=
  let count := b.attributes.length
  let oldEnabled := s.attributeCount
  let reconcile :=
    if count < oldEnabled then
      (List.range' count (oldEnabled - count)).map Event.disableVertexAttribArray
    else if count > oldEnabled then
      (List.range' oldEnabled (count - oldEnabled)).map Event.enableVertexAttribArray
    else
      []
  let pointers := b.attributes.map fun a =>
    Event.vertexAttribPointer a.location a.size a.type a.normalized a.stride a.offset
  ({ s with attributeCount := count, attributeBufferId := b.id }, reconcile ++ pointers)

/-! ## Attribute descriptor registry (src/lib/attributes) -/

/-- An `AttributeDesc` as documented in src/lib/attributes/index.js. -/
structure AttributeDesc where
  size : Nat
  type : Nat
  normalized : Bool
  stride : Nat
  offset : Nat
  deriving DecidableEq, Repr

/-- `attributeEqual` (src/lib/attributes/attribute_buffer.js lines 10-24):
structural equality over size, type, normalized and stride only. -/
def attributeEqual (a b : AttributeDesc) : Bool :=
  if a.size ≠ b.size then false
  else if a.type ≠ b.type then false
  else if a.normalized ≠ b.normalized then false
  else a.stride = b.stride

/-- A registered `AttributeBuffer` (src/lib/attributes/attribute_buffer.js):
an identity assigned from the module-level `nextId` counter plus the stored
descriptor sequence. -/
structure AttributeBuffer where
  id : Nat
  attributes : List AttributeDesc
  deriving DecidableEq, Repr

/-- `AttributeBuffer.definitionEqual` (attribute_buffer.js lines 48-65):
a `null` argument throws (`none` case); a length mismatch is an immediate
non-match; otherwise the descriptors are compared pairwise with
`attributeEqual`. -/
def AttributeBuffer.definitionEqual (b : AttributeBuffer) (attributes : Option (List AttributeDesc)) :
    Except JsError Bool :=
  match attributes with
  | none => .error .noAttributesSupplied  -- 'No attributes specified.'
  | some attrs =>
    if attrs.length ≠ b.attributes.length then
      .ok false
    else
      .ok ((b.attributes.zip attrs).all fun p => attributeEqual p.1 p.2)

/-- `AttributeBuffer.fromDesc(gl, attributes)` (attribute_buffer.js lines
80-94): throws when `attributes` is absent; otherwise allocates the next
identity (`this._id = ++nextId`) and copies the descriptors.  The `glType`
annotation loop only decorates each descriptor from the `gl` argument and
adds no observable field used elsewhere in the embedded code. -/
def AttributeBuffer.fromDesc (nextId : Nat) (attributes : Option (List AttributeDesc)) :
    Except JsError (AttributeBuffer × Nat) :=
  match attributes with
  | none => .error .noAttributesSupplied  -- 'No attributes supplied.'
  | some attrs => .ok (⟨nextId + 1, attrs⟩, nextId + 1)

/-- The module-level registry: the `registered` list plus the `nextId`
counter of attribute_buffer.js. -/
structure Registry where
  registered : List AttributeBuffer
  nextId : Nat
  deriving DecidableEq, Repr

def Registry.empty : Registry := ⟨[], 0⟩

/-- Scan loop of `createAttributeBuffer`: return the first registered entry
whose `definitionEqual(desc)` holds.  With a present descriptor list
`definitionEqual` cannot throw, so the scan is a plain `find?`. -/
def Registry.lookup (r : Registry) (desc : List AttributeDesc) : Option AttributeBuffer :=
  r.registered.find? fun b =>
    match b.definitionEqual (some desc) with
    | .ok result => result
    | .error _ => false

/-- `createAttributeBuffer(desc)` (src/lib/attributes/index.js lines
121-132; identically in lines 18-29 and 54-65): scan the registry for a
structurally-equal entry and return it; otherwise construct via
`AttributeBuffer.fromDesc(desc)`.  That call site passes `desc` in the
`gl` parameter position and nothing in the `attributes` position, so
`fromDesc` receives `attributes = undefined` and its `!attributes` guard
throws — construction of a new entry is unreachable. -/
def createAttributeBuffer (r : Registry) (desc : List AttributeDesc) :
    Except JsError (AttributeBuffer × Registry) :=
  match r.lookup desc with
  | some b => .ok (b, r)
  | none =>
    match AttributeBuffer.fromDesc r.nextId none with
    | .error e => .error e
    | .ok (b, nextId) => .ok (b, ⟨r.registered ++ [b], nextId⟩)

/-! ## Resource handles

The collaborator context is reduced to the behaviour the handles observe:
the ids handed out by `createProgram` / `createShader` and the results of
the `COMPILE_STATUS` / `LINK_STATUS` queries. -/

structure ProgramContext where
  programId : Nat
  shaderId : Nat → Nat       -- id returned by createShader, per shader type
  compileStatus : Nat → Bool -- COMPILE_STATUS query result, per shader type
  linkStatus : Bool          -- LINK_STATUS query result

/-- `Shader` (src/index.js): `InvalidShader = null`; the handle keeps its
context reference, its native id and its shader type. -/
structure Shader where
  gl : Option ProgramContext
  id : Option Nat
  type : Nat

def Shader.new : Shader := ⟨none, none, 0⟩

/-- Shader.initialize(gl, type, source): throws with no context or when
already initialized; otherwise creates the native shader, uploads the
source and compiles; a false `COMPILE_STATUS` logs the diagnostic and
throws ('Failed to compile shader.'). -/
def Shader.initialize (sh : Shader) (gl : Option ProgramContext) (ty : Nat) :
    Except JsError (Shader × List Event) :=
  match gl with
  | none => .error .missingContext
  | some ctx =>
    if sh.gl.isSome then .error .alreadyInitialized
    else
      let id := ctx.shaderId ty
      if ctx.compileStatus ty = false then
        .error .compileFailure
      else
        .ok ({ gl := some ctx, id := some id, type := ty },
             [Event.createShader id, Event.shaderSource id, Event.compileShader id])

/-- `Shader.dispose`: deletes the native shader when a context is present
and resets every field; otherwise a no-op.  The reset state coincides with
the constructor state. -/
def Shader.dispose (sh : Shader) : Shader × List Event :=
  match sh.gl with
  | some _ => (Shader.new, [Event.deleteShader sh.id])
  | none => (sh, [])

/-- `Program` (src/unnamed/part_004, src/lib/program/index.js):
`InvalidProgramId = null`; the handle owns one vertex and one fragment
`Shader` sub-object, constructed with it. -/
structure Program where
  gl : Option ProgramContext
  id : Option Nat
  vertexShader : Shader
  fragmentShader : Shader

def Program.new : Program := ⟨none, none, Shader.new, Shader.new⟩

/-- `Program.dispose` (src/unnamed/part_004 lines 113-123): when a context
is present, deletes the native program, disposes both owned shaders and
resets id and context; otherwise a no-op. -/
def Program.dispose (p : Program) : Program × List Event :=
  match p.gl with
  | some _ =>
    let f := p.fragmentShader.dispose
    let v := p.vertexShader.dispose
    ({ gl := none, id := none, vertexShader := v.1, fragmentShader := f.1 },
     Event.deleteProgram p.id :: (f.2 ++ v.2))
  | none => (p, [])

/-- JavaScript truthiness of an optional string argument
(`if (vertexShaderSource)`): absent and empty strings are falsy. -/
def jsTruthyString : Option String → Bool
  | none => false
  | some s => s ≠ ""

/-- Program.initialize(gl, vertexShaderSource, fragmentShaderSource)
(src/unnamed/part_004 lines 76-108): throws with no context or when
already initialized; creates the native program; attaches a compiled
shader per supplied (truthy) source, skipping absent stages; links; a
false `LINK_STATUS` logs the diagnostic and calls `this.dispose()` —
the method then returns normally, it does not throw. -/
def Program.initialize (p : Program) (gl : Option ProgramContext)
    (vertexShaderSource fragmentShaderSource : Option String) :
    Except JsError (Program × List Event) :=
  match gl with
  | none => .error .missingContext
  | some ctx =>
    if p.gl.isSome then .error .alreadyInitialized
    else
      let pid := ctx.programId
      let vres : Except JsError (Shader × List Event) :=
        if jsTruthyString vertexShaderSource then
          match Shader.initialize p.vertexShader (some ctx) glVERTEX_SHADER with
          | .error e => .error e
          | .ok (sh, tr) => .ok (sh, tr ++ [Event.attachShader pid sh.id])
        else
          .ok (p.vertexShader, [])
      match vres with
      | .error e => .error e
      | .ok (vsh, vtr) =>
        let fres : Except JsError (Shader × List Event) :=
          if jsTruthyString fragmentShaderSource then
            match Shader.initialize p.fragmentShader (some ctx) glFRAGMENT_SHADER with
            | .error e => .error e
            | .ok (sh, tr) => .ok (sh, tr ++ [Event.attachShader pid sh.id])
          else
            .ok (p.fragmentShader, [])
        match fres with
        | .error e => .error e
        | .ok (fsh, ftr) =>
          let p1 : Program := { gl := some ctx, id := some pid, vertexShader := vsh, fragmentShader := fsh }
          let tr := Event.createProgram pid :: (vtr ++ ftr) ++ [Event.linkProgram pid]
          if ctx.linkStatus = false then
            let d := p1.dispose
            .ok (d.1, tr ++ d.2)
          else
            .ok (p1, tr)

/-! ## Buffer and texture handles -/

structure BufferContext where
  bufferId : Nat
  deriving DecidableEq, Repr

/-- `BaseBuffer` (src/lib/buffer/index.js): `InvalidBufferId = null`. -/
structure BaseBuffer where
  gl : Option BufferContext
  bufferType : Nat
  drawType : Nat
  id : Option Nat
  deriving DecidableEq, Repr

def BaseBuffer.new : BaseBuffer := ⟨none, 0, 0, none⟩

/-- BaseBuffer.initializeBuffer (buffer/index.js lines 52-66): throws when
already initialized or given no context; otherwise stores the context and
kinds and allocates the native buffer. -/
def BaseBuffer.initializeBuffer (b : BaseBuffer) (gl : Option BufferContext)
    (bufferType drawType : Nat) : Except JsError (BaseBuffer × List Event) :=
  if b.gl.isSome then .error .alreadyInitialized
  else
    match gl with
    | none => .error .missingContext
    | some ctx =>
      .ok ({ gl := some ctx, bufferType := bufferType, drawType := drawType,
             id := some ctx.bufferId }, [])

/-- `BaseBuffer.dispose` (src/lib/buffer/index.js lines 20-27): deletes the
native buffer and resets id and context when a context is present;
otherwise a no-op. -/
def BaseBuffer.dispose (b : BaseBuffer) : BaseBuffer × List Event :=
  match b.gl with
  | some _ => ({ b with id := none, gl := none }, [Event.deleteBuffer b.id])
  | none => (b, [])

structure TextureContext where
  textureId : Nat
  deriving DecidableEq, Repr

/-- `BaseTexture` (src/unnamed/part_004 lines 1-35): `InvalidTextureId = null`. -/
structure BaseTexture where
  gl : Option TextureContext
  id : Option Nat
  deriving DecidableEq, Repr

def BaseTexture.new : BaseTexture := ⟨none, none⟩

/-- BaseTexture.initialize(gl) (part_004 lines 26-34): throws when the id
is already set; otherwise stores `gl.createTexture()` in `this._id`.  The
source never assigns `this._gl`, so the context field stays as it was. -/
def BaseTexture.initialize (t : BaseTexture) (gl : TextureContext) :
    Except JsError (BaseTexture × List Event) :=
  if t.id.isSome then .error .alreadyInitialized
  else .ok ({ t with id := some gl.textureId }, [])

/-- `BaseTexture.dispose` (part_004 lines 17-24): guarded by
`this._id !== InvalidTextureId`; inside the guard it calls
`this._gl.deleteTexture(this._id)` — when `_gl` is `null` that property
access raises a TypeError, modelled as the `none` result. -/
def BaseTexture.dispose (t : BaseTexture) : Option (BaseTexture × List Event) :=
  if t.id ≠ none then
    match t.gl with
    | none => none
    | some _ => some (⟨none, none⟩, [Event.deleteTexture t.id])
  else
    some (t, [])

/-! ## Call-sequence bookkeeping for the `useProgram` run-length property -/

/-- Fold a sequence of `useProgram` requests through the state cache,
concatenating the emitted driver calls. -/
def WebGLState.useProgramSeq (s : WebGLState) : List (Option Nat) → WebGLState × List Event
  | [] => (s, [])
  | p :: rest =>
    let r := s.useProgram p
    let r' := r.1.useProgramSeq rest
    (r'.1, r.2.1 ++ r'.2)

/-- Number of positions at which the sequence differs from its predecessor,
the predecessor of the first element being `prev`. -/
def changeCount : Option Nat → List (Option Nat) → Nat
  | _, [] => 0
  | prev, p :: rest => (if p ≠ prev then 1 else 0) + changeCount p rest

/-- Number of maximal runs of consecutive equal ids in a sequence — the
quantity named by the specification's run-length property. -/
def runCount : List (Option Nat) → Nat
  | [] => 0
  | p :: rest => 1 + changeCount p rest

/-- `gl.FLOAT`, used in concrete descriptor examples. -/
def glFLOAT : Nat := 5126

/-- Cache state with five enabled attribute slots and layout id 1 bound,
as produced by a previous `enableAttributes` call on a 5-slot layout. -/
def fiveSlotState : WebGLState :=
  { WebGLState.new with attributeCount := 5, attributeBufferId := 1 }

/-- A context whose compilations succeed and whose link-status query
reports failure. -/
def linkFailCtx : ProgramContext where
  programId := 1
  shaderId := fun _ => 2
  compileStatus := fun _ => true
  linkStatus := false

/-! ## Theorems -/

/-- The driver-call count of a `useProgram` sequence equals the number of
positions whose requested id differs from the id cached just before them. -/
theorem WebGLState.useProgramSeq_length (s : WebGLState) (seq : List (Option Nat)) :
    (s.useProgramSeq seq).2.length = changeCount s.activeProgram seq := by
  induction seq generalizing s with
  | nil => rfl
  | cons p rest ih =>
    by_cases h : s.activeProgram = p
    · simp only [WebGLState.useProgramSeq, WebGLState.useProgram, h, ne_eq, not_true_eq_false,
        if_false, List.nil_append, changeCount, if_neg (by simp [h] : ¬ p ≠ s.activeProgram)]
      rw [ih]
      simp [h]
    · simp only [WebGLState.useProgramSeq, WebGLState.useProgram, ne_eq, h, not_false_eq_true,
        if_true, List.length_append, changeCount, if_pos (by simp [Ne.symm h] : p ≠ s.activeProgram)]
      rw [ih]
      simp [Nat.add_comm]

/-- Claim C2 (counterexample): the very first `useProgram` call after
construction, when its id is the `InvalidProgramId` sentinel (`null`),
issues no underlying `gl.useProgram` call even though it is a maximal run
of length one — the cached sentinel coincides with the requested value. -/
theorem useProgram_sentinel_first_run_cex :
    (WebGLState.new.useProgramSeq [none]).2.length = 0 ∧ runCount [none] = 1 := by
  decide

/-- Claim C2 (amended): for every sequence of `useProgram(id)` calls after
construction, and equally after `invalidate()`, the underlying
`gl.useProgram` fires exactly once per maximal run of consecutive equal
ids — never on a repetition within a run — except that a first run whose
id is the `InvalidProgramId` sentinel (`null`) issues no call, because
construction and `invalidate` cache that same sentinel. -/
theorem useProgram_once_per_run (s : WebGLState) (seq : List (Option Nat)) :
    (WebGLState.new.useProgramSeq seq).2.length
        + (if seq.head? = some none then 1 else 0) = runCount seq
  ∧ ((s.invalidate).1.useProgramSeq seq).2.length
        + (if seq.head? = some none then 1 else 0) = runCount seq := by
  have key : ∀ t : List (Option Nat),
      changeCount none t + (if t.head? = some none then 1 else 0) = runCount t := by
    intro t
    cases t with
    | nil => rfl
    | cons p rest =>
      by_cases hp : p = none
      · subst hp
        simp [changeCount, runCount, Nat.add_comm]
      · simp [changeCount, runCount, hp]
  refine ⟨?_, ?_⟩
  · rw [WebGLState.useProgramSeq_length]
    exact key seq
  · rw [WebGLState.useProgramSeq_length]
    exact key seq

/-- Claim C3 (counterexample): from the reachable state obtained by binding
array buffer 5 and then invalidating, `bindArrayBuffer(InvalidBufferId)`
(the `null` sentinel) issues no underlying `gl.bindBuffer` call: the
invalidate reset the cell to that same sentinel. -/
theorem bindArrayBuffer_after_invalidate_sentinel_cex :
    ((((WebGLState.new.bindArrayBuffer (some 5)).1.invalidate).1.bindArrayBuffer none)).2.1 = [] := by
  decide

/-- Claim C3 (amended): after `invalidate()`, a `bindArrayBuffer(X)` call
with any value `X` other than the `InvalidBufferId` sentinel always issues
the underlying `gl.bindBuffer(ARRAY_BUFFER, X)` call, whatever value was
cached before the invalidate; the sentinel itself is the one value the
reset cell still suppresses. -/
theorem bindArrayBuffer_after_invalidate_fires (s : WebGLState) (x : Option Nat)
    (h : x ≠ none) :
    ((s.invalidate).1.bindArrayBuffer x).2.1 = [Event.bindBuffer glARRAY_BUFFER x] := by
  have harr : (s.invalidate).1.arrayBuffer = none := rfl
  rw [WebGLState.bindArrayBuffer, harr, if_pos (Ne.symm h)]

/-- Claim C3 (witness): instantiation at the fresh cache and `X = 5`. -/
theorem bindArrayBuffer_after_invalidate_fires_witness :
    ((WebGLState.new.invalidate).1.bindArrayBuffer (some 5)).2.1
      = [Event.bindBuffer glARRAY_BUFFER (some 5)] :=
  bindArrayBuffer_after_invalidate_fires WebGLState.new (some 5) (by decide)

/-- Claim C4: `createAttributeBuffer` on a fresh registry with a one-element
descriptor list does not return an `AttributeBuffer` at all — the
construction path applies `AttributeBuffer.fromDesc` without its
`attributes` argument, whose guard throws 'No attributes supplied.'.  The
claimed same-identity/distinct-identity behaviour of consecutive calls is
therefore unobservable: no call that reaches construction returns. -/
theorem createAttributeBuffer_fresh_descriptor_throws :
    createAttributeBuffer Registry.empty [⟨3, glFLOAT, false, 0, 0⟩]
      = .error .noAttributesSupplied := by
  rfl

/-- Claim C5: `setDepthTest(true, DepthCompare.Never)` does not map `Never`
to the native `gl.NEVER` constant: `DepthCompare.Never` is `0`, which is
falsy, so the call takes the no-comparison branch — the depth-compare cell
stays unset and no `depthFunc` call is issued, while the truthy values
(here `Less`) are mapped as claimed and an out-of-range truthy value
throws 'Unknown depth comparison.'. -/
theorem setDepthTest_never_is_dropped :
    WebGLState.new.setDepthTest true (some DepthCompare.Never)
        = .ok ({ WebGLState.new with depthTest := ⟨true, true⟩ }, [Event.enable glDEPTH_TEST])
  ∧ WebGLState.new.setDepthTest true (some DepthCompare.Less)
        = .ok ({ WebGLState.new with depthTest := ⟨true, true⟩, depthCompare := ⟨true, (glLESS : Int)⟩ },
               [Event.enable glDEPTH_TEST, Event.depthFunc glLESS])
  ∧ WebGLState.new.setDepthTest true (some 9) = .error .unknownDepthComparison := by
  refine ⟨rfl, rfl, rfl⟩

/-- Claim C6: the unit-index validation accepts `32` because the source
tests `textureUnit > MAXIMUM_TEXTURE_UNITS` instead of `>=`; unit `32`
then indexes past the 32-entry unit table and the property access on
`undefined` raises a TypeError rather than the claimed InvalidArgument
error, while `33` and `-1` are rejected by the validation as claimed. -/
theorem bindTexture2D_unit32_type_error :
    WebGLState.new.bindTexture2D 32 (some 1) = .error .typeError
  ∧ WebGLState.new.bindTexture2D 33 (some 1) = .error .invalidTextureUnit
  ∧ WebGLState.new.bindTexture2D (-1) (some 1) = .error .invalidTextureUnit := by
  refine ⟨rfl, rfl, rfl⟩

/-- Claim C7: `createAttributeBuffer` has no emptiness check — an empty
descriptor list fails only because every construction path fails: the
misapplied `AttributeBuffer.fromDesc` throws 'No attributes supplied.'
for the empty list and for a non-empty unregistered list alike, so the
function never constructs a registry entry for non-empty input either. -/
theorem createAttributeBuffer_never_constructs :
    createAttributeBuffer Registry.empty [] = .error .noAttributesSupplied
  ∧ createAttributeBuffer Registry.empty [⟨2, glFLOAT, false, 8, 0⟩]
      = .error .noAttributesSupplied := by
  refine ⟨rfl, rfl⟩

/-- Claim C1 (counterexample): `enableAttributes` is guarded by
`if (attributeBuffer.id !== this.attributeBufferId)`.  Presenting a
two-descriptor buffer whose id equals the cached layout id makes the call
a complete no-op: no slot in `[2, 5)` is disabled, no attribute-pointer
configuration is issued for `[0, 2)`, and the cached enabled-count stays
`5` instead of becoming `2`. -/
theorem enableAttributes_repeat_id_noop_cex :
    (LibState.enableAttributes fiveSlotState
        ⟨1, [⟨0, 3, glFLOAT, false, 0, 0⟩, ⟨1, 3, glFLOAT, false, 0, 12⟩]⟩).2 = []
  ∧ (LibState.enableAttributes fiveSlotState
        ⟨1, [⟨0, 3, glFLOAT, false, 0, 0⟩, ⟨1, 3, glFLOAT, false, 0, 12⟩]⟩).1.attributeCount = 5 := by
  refine ⟨rfl, rfl⟩

/-- Claim C1 (amended): in the final revision (src/lib/state/index.js),
whenever the presented buffer's identity differs from the cached layout
id, `enableAttributes` with descriptor count `new` over previously-enabled
count `old` disables exactly the slots in `[max(1, new), old)` — so slot 0
is never disabled, even when `new == 0` —, enables exactly the slots in
`[old, new)`, issues the attribute-pointer configuration for every slot in
`[0, new)`, and afterwards caches `new` as the enabled count and the
buffer's identity as the last-bound layout; when the identity equals the
cached id the whole call is a no-op (see the counterexample). -/
theorem enableAttributes_reconciliation (s : WebGLState) (b : AttributeBufferObj)
    (h : b.id ≠ s.attributeBufferId) :
    (LibState.enableAttributes s b).1.attributeCount = b.attributes.length
  ∧ (LibState.enableAttributes s b).1.attributeBufferId = b.id
  ∧ (∀ i : Nat, Event.disableVertexAttribArray i ∈ (LibState.enableAttributes s b).2 ↔
      (max 1 b.attributes.length ≤ i ∧ i < s.attributeCount))
  ∧ (∀ i : Nat, Event.enableVertexAttribArray i ∈ (LibState.enableAttributes s b).2 ↔
      (s.attributeCount ≤ i ∧ i < b.attributes.length))
  ∧ (∀ i a, b.attributes.get? i = some a →
      Event.vertexAttribPointer a.location a.size a.type a.normalized a.stride a.offset ∈
        (LibState.enableAttributes s b).2)
  ∧ Event.disableVertexAttribArray 0 ∉ (LibState.enableAttributes s b).2 := by
  rw [LibState.enableAttributes, if_pos h]
  refine ⟨rfl, rfl, ?_, ?_, ?_, ?_⟩
  · intro i
    simp only [List.mem_append, List.mem_flatMap, List.mem_range, List.mem_map,
      List.mem_range'_1, Option.mem_toList]
    constructor
    · rintro (⟨j, _, hj⟩ | ⟨j, hj, hje⟩)
      · rcases hj with hj' | ⟨a, _, hja⟩
        · split at hj' <;> simp_all
        · cases hja
      · cases hje
        exact ⟨by omega, by omega⟩
    · rintro ⟨h1, h2⟩
      right
      exact ⟨i, by omega, rfl⟩
  · intro i
    simp only [List.mem_append, List.mem_flatMap, List.mem_range, List.mem_map,
      List.mem_range'_1, Option.mem_toList]
    constructor
    · rintro (⟨j, hjlt, hj⟩ | ⟨j, hj, hje⟩)
      · rcases hj with hj' | ⟨a, _, hja⟩
        · by_cases hle : s.attributeCount ≤ j
          · rw [if_pos hle] at hj'
            have hij := List.mem_singleton.mp hj'
            injection hij with hij'
            subst hij'
            exact ⟨hle, hjlt⟩
          · rw [if_neg hle] at hj'
            cases hj'
        · cases hja
      · cases hje
    · rintro ⟨h1, h2⟩
      left
      refine ⟨i, h2, Or.inl ?_⟩
      rw [if_pos h1]
      exact List.mem_singleton.mpr rfl
  · intro i a hget
    have hi : i < b.attributes.length := (List.get?_eq_some.mp hget).1
    refine List.mem_append.mpr (Or.inl ?_)
    refine List.mem_flatMap.mpr ⟨i, List.mem_range.mpr hi, List.mem_append.mpr (Or.inr ?_)⟩
    refine List.mem_map.mpr ⟨a, ?_, rfl⟩
    rw [hget]
    simp
  · intro hmem
    have h30 : Event.disableVertexAttribArray 0 ∈
        ((List.range b.attributes.length).flatMap fun i =>
          (if s.attributeCount ≤ i then [Event.enableVertexAttribArray i] else []) ++
          ((b.attributes.get? i).toList.map fun a =>
            Event.vertexAttribPointer a.location a.size a.type a.normalized a.stride a.offset)) ++
        (List.range' (max 1 b.attributes.length)
          (s.attributeCount - max 1 b.attributes.length)).map Event.disableVertexAttribArray :=
      hmem
    rcases List.mem_append.mp h30 with hj | hj
    · rcases List.mem_flatMap.mp hj with ⟨j, _, hj'⟩
      rcases List.mem_append.mp hj' with hj'' | hj''
      · split at hj'' <;> simp_all
      · rcases List.mem_map.mp hj'' with ⟨a, _, hja⟩
        cases hja
    · rcases List.mem_map.mp hj with ⟨j, hjr, hje⟩
      cases hje
      have := (List.mem_range'_1.mp hjr).1
      omega

/-- Claim C1 (witness): the specification's own scenario — a 5-slot layout
(id 1, already cached) followed by a 2-slot layout with a fresh identity:
the call leaves enabled-count 2, disables slot 2 and never slot 0. -/
theorem enableAttributes_reconciliation_witness :
    (LibState.enableAttributes fiveSlotState
        ⟨2, [⟨0, 3, glFLOAT, false, 0, 0⟩, ⟨1, 3, glFLOAT, false, 0, 12⟩]⟩).1.attributeCount = 2
  ∧ Event.disableVertexAttribArray 2 ∈ (LibState.enableAttributes fiveSlotState
        ⟨2, [⟨0, 3, glFLOAT, false, 0, 0⟩, ⟨1, 3, glFLOAT, false, 0, 12⟩]⟩).2
  ∧ Event.disableVertexAttribArray 0 ∉ (LibState.enableAttributes fiveSlotState
        ⟨2, [⟨0, 3, glFLOAT, false, 0, 0⟩, ⟨1, 3, glFLOAT, false, 0, 12⟩]⟩).2 := by
  have h := enableAttributes_reconciliation fiveSlotState
    ⟨2, [⟨0, 3, glFLOAT, false, 0, 0⟩, ⟨1, 3, glFLOAT, false, 0, 12⟩]⟩ (by decide)
  exact ⟨h.1, (h.2.2.1 2).mpr (by decide), h.2.2.2.2.2⟩

/-- Claim C8 (counterexample): with both stages supplied and the link step
reporting failure, Program.initialize returns normally — the result is
`.ok`, not an error, so no `LinkFailure` is raised to the caller; the
program is disposed (both native shader deletions and the program deletion
appear in the trace, and the handle is reset to its constructed state). -/
theorem program_link_failure_no_raise_cex :
    Program.initialize Program.new (some linkFailCtx) (some "v") (some "f")
      = .ok (Program.new,
          [Event.createProgram 1, Event.createShader 2, Event.shaderSource 2,
           Event.compileShader 2, Event.attachShader 1 (some 2), Event.createShader 2,
           Event.shaderSource 2, Event.compileShader 2, Event.attachShader 1 (some 2),
           Event.linkProgram 1, Event.deleteProgram (some 1), Event.deleteShader (some 2),
           Event.deleteShader (some 2)]) := by
  rfl

/-- Claim C8 (amended): for every context whose link step reports failure
(and whose shader compilations succeed), Program.initialize attaches a
stage exactly when its source is supplied and truthy — zero, one or two
stages are legal and an absent stage is simply skipped — links, logs, and
then automatically disposes the program and its owned shader sub-objects:
the native program is deleted, each initialized shader is deleted, and the
handle returns to its constructed state (id reset to the invalid
sentinel).  The method returns normally; it does not raise `LinkFailure`. -/
theorem program_link_failure_disposes (ctx : ProgramContext)
    (vs fs : Option String)
    (hlink : ctx.linkStatus = false)
    (hcv : ctx.compileStatus glVERTEX_SHADER = true)
    (hcf : ctx.compileStatus glFRAGMENT_SHADER = true) :
    Program.initialize Program.new (some ctx) vs fs
      = .ok (Program.new,
          Event.createProgram ctx.programId ::
          (((if jsTruthyString vs then
              [Event.createShader (ctx.shaderId glVERTEX_SHADER),
               Event.shaderSource (ctx.shaderId glVERTEX_SHADER),
               Event.compileShader (ctx.shaderId glVERTEX_SHADER),
               Event.attachShader ctx.programId (some (ctx.shaderId glVERTEX_SHADER))]
             else []) ++
            (if jsTruthyString fs then
              [Event.createShader (ctx.shaderId glFRAGMENT_SHADER),
               Event.shaderSource (ctx.shaderId glFRAGMENT_SHADER),
               Event.compileShader (ctx.shaderId glFRAGMENT_SHADER),
               Event.attachShader ctx.programId (some (ctx.shaderId glFRAGMENT_SHADER))]
             else [])) ++
           ([Event.linkProgram ctx.programId, Event.deleteProgram (some ctx.programId)] ++
            (if jsTruthyString fs then [Event.deleteShader (some (ctx.shaderId glFRAGMENT_SHADER))] else []) ++
            (if jsTruthyString vs then [Event.deleteShader (some (ctx.shaderId glVERTEX_SHADER))] else [])))) := by
  cases hv : jsTruthyString vs <;> cases hf : jsTruthyString fs <;>
    simp [ Program.initialize, Shader.initialize, Program.dispose, Shader.dispose,
      Program.new, Shader.new, hv, hf, hlink, hcv, hcf]

/-- Claim C8 (witness): instantiation with only a vertex stage — the
fragment stage is skipped (no attach for it, no shader deletion for it)
and the failing link disposes program and vertex shader without raising. -/
theorem program_link_failure_disposes_witness :
    Program.initialize Program.new (some linkFailCtx) (some "v") none
      = .ok (Program.new,
          [Event.createProgram 1, Event.createShader 2, Event.shaderSource 2,
           Event.compileShader 2, Event.attachShader 1 (some 2), Event.linkProgram 1,
           Event.deleteProgram (some 1), Event.deleteShader (some 2)]) := by
  have h := program_link_failure_disposes linkFailCtx (some "v") none rfl rfl rfl
  simpa [jsTruthyString, linkFailCtx] using h

/-- Claim C10: for an in-range unit `u` on which a rebind is decided, the
source issues exactly one underlying call — `gl.bindTexture` with target
`gl.TEXTURE_2D + u` and no separate texture-unit activation call — while
recording `gl.TEXTURE_2D` itself as the unit's cached target type; the
issued target equals the true `TEXTURE_2D` constant exactly when `u = 0`. -/
theorem bindTexture2D_single_offset_bind (s : WebGLState) (u : Int) (t : Option Nat)
    (tu : TextureUnit)
    (h0 : 0 ≤ u) (h32 : u ≤ (MAXIMUM_TEXTURE_UNITS : Int))
    (hget : s.textureUnits.get? u.toNat = some tu)
    (hneed : tu.type ≠ glTEXTURE_2D ∨ tu.texture ≠ t) :
    s.bindTexture2D u t
      = .ok ({ s with textureUnits := s.textureUnits.set u.toNat ⟨glTEXTURE_2D, t⟩ },
             [Event.bindTexture (glTEXTURE_2D + u.toNat) t], true)
  ∧ (glTEXTURE_2D + u.toNat = glTEXTURE_2D ↔ u = 0) := by
  constructor
  · rw [WebGLState.bindTexture2D, if_neg (by simp [MAXIMUM_TEXTURE_UNITS] at h32 ⊢; omega)]
    rw [hget]
    exact if_pos hneed
  · simp only [glTEXTURE_2D]
    omega

/-- Claim C10 (witness): binding texture 7 to unit 3 of a fresh cache
issues the single call `bindTexture(TEXTURE_2D + 3, 7)`, and
`TEXTURE_2D + 3` is not the true `TEXTURE_2D` target. -/
theorem bindTexture2D_single_offset_bind_witness :
    WebGLState.new.bindTexture2D 3 (some 7)
      = .ok ({ WebGLState.new with
                textureUnits := WebGLState.new.textureUnits.set (Int.toNat 3) ⟨glTEXTURE_2D, some 7⟩ },
             [Event.bindTexture (glTEXTURE_2D + Int.toNat 3) (some 7)], true)
  ∧ (glTEXTURE_2D + Int.toNat 3 = glTEXTURE_2D ↔ (3 : Int) = 0) := by
  have h := bindTexture2D_single_offset_bind WebGLState.new 3 (some 7) ⟨0, none⟩
    (by decide) (by decide) (by decide) (by decide)
  exact h

/-- Claim C9: BaseTexture.initialize stores the created native id but
never assigns `this._gl`; the subsequent `dispose()` passes its id guard
and dereferences the still-`null` context, raising a TypeError (`none`
result) instead of releasing the texture — `dispose` on an initialized
texture is not the claimed never-raising defensive no-op. -/
theorem texture_dispose_after_initialize_crashes :
    BaseTexture.initialize BaseTexture.new ⟨7⟩ = .ok (⟨none, some 7⟩, [])
  ∧ BaseTexture.dispose ⟨none, some 7⟩ = none := by
  refine ⟨rfl, rfl⟩

end WebGLHelp
